import Mathlib

/-!
Verification of the RiceHack15 client and of the retrieval/quiz-generation
engine described in its server documentation.

Part 1 embeds the client-side quiz pipeline:
* `buildQuizRequest` — the request body built by `generateQuizFromAPI`
  (src/client/src/utils/quizGenerator.ts, lines 39-44);
* `questionsToGenerate` — the question-count computation of
  `createSampleQuestions` (src/client/src/pages/QuizExam.tsx, line 107);
* `correctAnswerIndex` — the correct-answer normalization of
  `createSampleQuestions` (QuizExam.tsx, lines 120-134);
* `isCorrectAnswer` — the grading step of `handleAnswerSelect` in the quiz
  player (components/quizUser.tsx, lines 70-98 of the player component).
-/

/-- The TypeScript union `'multiple_choice' | 'blank_filling'` of
`QuizGenerationOptions.quizType` in quizGenerator.ts. -/
inductive QuizType where
  | multiple_choice
  | blank_filling
deriving DecidableEq, Repr

/-- The string each `QuizType` value denotes in the TypeScript source. -/
def QuizType.toWire : QuizType → String
  | QuizType.multiple_choice => "multiple_choice"
  | QuizType.blank_filling => "blank_filling"

/-- `QuizGenerationOptions` from quizGenerator.ts.  `quizPrompt?` is optional. -/
structure QuizGenerationOptions where
  fileIds : List String
  quizType : QuizType
  numQuestions : Int
  quizPrompt : Option String
deriving Repr

/-- The JSON request body sent to `POST /api/quiz/generate`. -/
structure QuizRequestBody where
  file_ids : Option (List String)
  quiz_type : String
  num_questions : Int
  quiz_prompt : String
deriving Repr, DecidableEq

/-- JavaScript `a || b` on numbers: `0` is falsy, everything else is kept. -/
def jsOrNum (n d : Int) : Int :=
  if n = 0 then d else n

/-- JavaScript `a || b` where `a` is an optional string: `undefined` and the
empty string are falsy. -/
def jsOrStr (a : Option String) (d : String) : String :=
  match a with
  | some s => if s = "" then d else s
  | none => d

/-- The default quiz prompt literal of quizGenerator.ts. -/
def defaultQuizPrompt : String :=
  "Generate educational quiz questions based on the provided materials. Focus on key concepts and important information."

/-- The `requestBody` object built by `generateQuizFromAPI`
(quizGenerator.ts, lines 39-44):
`file_ids = fileIds.length > 0 ? fileIds : null`,
`quiz_type = quizType === 'blank_filling' ? 'short_answer' : quizType`,
`num_questions = numQuestions || 5`, `quiz_prompt = quizPrompt || default`. -/
def buildQuizRequest (options : QuizGenerationOptions) : QuizRequestBody :=
  { file_ids := if options.fileIds.length > 0 then some options.fileIds else none
    quiz_type :=
      if options.quizType = QuizType.blank_filling then "short_answer"
      else options.quizType.toWire
    num_questions := jsOrNum options.numQuestions 5
    quiz_prompt := jsOrStr options.quizPrompt defaultQuizPrompt }

/-- `Math.max(3, Math.min(numQuestions || 5, 10))` from
`createSampleQuestions` (QuizExam.tsx, line 107). -/
def questionsToGenerate (numQuestions : Int) : Int :=
  max 3 (min (jsOrNum numQuestions 5) 10)

/-- The dynamic type of the `correct_answer` field of a raw generated
question (`string | number`, or missing), per the `QuizResponse` interface of
quizGenerator.ts. -/
inductive RawAnswer where
  | str (s : String)
  | num (n : Int)
  | absent
deriving DecidableEq, Repr

/-- One entry of `result.quiz.questions` as typed by `QuizResponse` in
quizGenerator.ts. -/
structure RawQuestion where
  question : Option String
  text : Option String
  options : Option (List String)
  correct_answer : RawAnswer
  answer : Option String
deriving Repr

/-- `s.match(/^[A-D]/i)` followed by
`letterMatch[0].toUpperCase().charCodeAt(0) - 65` (QuizExam.tsx, lines
124-126).  The regex tests the first character; `toUpperCase` maps
`'a'..'d'` (codes 97-100) to `'A'..'D'` (codes 65-68), so the computed
index is `code - 65` for an upper-case match and `code - 97` for a
lower-case one.  Returns `none` when the regex does not match. -/
def letterIndex (s : String) : Option Nat :=
  match s.data with
  | [] => none
  | c :: _ =>
    if 65 ≤ c.toNat ∧ c.toNat ≤ 68 then some (c.toNat - 65)
    else if 97 ≤ c.toNat ∧ c.toNat ≤ 100 then some (c.toNat - 97)
    else none

/-- The normalization of `q.correct_answer` to `correctAnswerIndex` in
`createSampleQuestions` (QuizExam.tsx, lines 120-134): start from 0; a
string is tried as a leading letter A-D, then (when `q.options` exists and
contains it) as literal option text; a number is used directly. -/
def correctAnswerIndex (q : RawQuestion) : Int :=
  match q.correct_answer with
  | RawAnswer.str s =>
    match letterIndex s with
    | some i => (i : Int)
    | none =>
      match q.options with
      | some opts => if s ∈ opts then (List.indexOf s opts : Int) else 0
      | none => 0
  | RawAnswer.num n => n
  | RawAnswer.absent => 0

/-- `q.options || ['', '', '', '']` (QuizExam.tsx, line 140): the options
list stored on the built question. -/
def effectiveOptions (q : RawQuestion) : List String :=
  match q.options with
  | some opts => opts
  | none => ["", "", "", ""]

/-- A leading-letter match always yields an index between 0 and 3. -/
theorem letterIndex_le_three {s : String} {i : Nat}
    (h : letterIndex s = some i) : i ≤ 3 := by
  unfold letterIndex at h
  split at h
  · exact absurd h (by simp)
  · split at h
    · injection h with h
      omega
    · split at h
      · injection h with h
        omega
      · exact absurd h (by simp)

/-- C1: for every multiple_choice question of a successful quiz-generation
response whose raw `correct_answer` is a string (a letter "A"-"D", a numeric
string such as "1", or the literal text of an option) and whose effective
options list has the four entries the response format prescribes, the
normalization `correctAnswerIndex` produces a valid zero-based index into
that options list. -/
theorem c1_correct_answer_valid_index (q : RawQuestion) (s : String)
    (hs : q.correct_answer = RawAnswer.str s)
    (hlen : (effectiveOptions q).length = 4) :
    0 ≤ correctAnswerIndex q ∧
      correctAnswerIndex q < ((effectiveOptions q).length : Int) := by
  rw [hlen]
  rcases hlet : letterIndex s with _ | i
  · rcases hopt : q.options with _ | opts
    · simp only [correctAnswerIndex, hs, hlet, hopt]
      norm_num
    · have hopts : (effectiveOptions q).length = opts.length := by
        simp only [effectiveOptions, hopt]
      rw [hlen] at hopts
      by_cases hmem : s ∈ opts
      · have hidx : List.indexOf s opts < opts.length :=
          List.indexOf_lt_length.mpr hmem
        simp only [correctAnswerIndex, hs, hlet, hopt, if_pos hmem]
        omega
      · simp only [correctAnswerIndex, hs, hlet, hopt, if_neg hmem]
        norm_num
  · have hi : i ≤ 3 := letterIndex_le_three hlet
    simp only [correctAnswerIndex, hs, hlet]
    omega

/-- C1 witness: the concrete raw question with 4 options and raw correct
answer "B" normalizes to a valid index. -/
theorem c1_correct_answer_valid_index_witness :
    0 ≤ correctAnswerIndex
        { question := some "q", text := none, options := some ["w", "x", "y", "z"],
          correct_answer := RawAnswer.str "B", answer := none } ∧
    correctAnswerIndex
        { question := some "q", text := none, options := some ["w", "x", "y", "z"],
          correct_answer := RawAnswer.str "B", answer := none } <
      ((effectiveOptions
        { question := some "q", text := none, options := some ["w", "x", "y", "z"],
          correct_answer := RawAnswer.str "B", answer := none }).length : Int) :=
  c1_correct_answer_valid_index _ "B" rfl (by decide)

/-- C8: when the raw `correct_answer` is a string that neither begins with a
letter A-D (case-insensitive) nor occurs verbatim in the options list, the
normalization silently assigns index 0; when it is a number, that number is
used directly with no range check against the options list. -/
theorem c8_silent_default_and_unchecked_number :
    (∀ (q : RawQuestion) (s : String), q.correct_answer = RawAnswer.str s →
      letterIndex s = none →
      (∀ opts, q.options = some opts → s ∉ opts) →
      correctAnswerIndex q = 0) ∧
    (∀ (q : RawQuestion) (n : Int), q.correct_answer = RawAnswer.num n →
      correctAnswerIndex q = n) := by
  constructor
  · intro q s hs hlet hnotin
    rcases hopt : q.options with _ | opts
    · simp only [correctAnswerIndex, hs, hlet, hopt]
    · simp only [correctAnswerIndex, hs, hlet, hopt,
        if_neg (hnotin opts hopt)]
  · intro q n hn
    simp only [correctAnswerIndex, hn]

/-- C8 witness: the numeric string "1" is silently mapped to index 0 even
though options are ["w","x","y","z"], and the out-of-range number 99 is kept
as-is. -/
theorem c8_silent_default_and_unchecked_number_witness :
    correctAnswerIndex
      { question := none, text := none, options := some ["w", "x", "y", "z"],
        correct_answer := RawAnswer.str "1", answer := none } = 0 ∧
    correctAnswerIndex
      { question := none, text := none, options := some ["w", "x", "y", "z"],
        correct_answer := RawAnswer.num 99, answer := none } = 99 := by
  constructor
  · exact c8_silent_default_and_unchecked_number.1 _ "1" rfl (by decide)
      (by
        intro opts h
        injection h with h
        subst h
        decide)
  · exact c8_silent_default_and_unchecked_number.2 _ 99 rfl

/-- C9: every request built by `generateQuizFromAPI` carries
`quiz_type = "short_answer"` when the caller selected blank_filling and
the caller's own value (`"multiple_choice"`) otherwise — so `"essay"` and
`"mixed"` are never sent — and an empty `fileIds` list is sent as
`file_ids = null` rather than an empty array. -/
theorem c9_quiz_type_mapping_and_null_file_ids (options : QuizGenerationOptions) :
    (options.quizType = QuizType.blank_filling →
      (buildQuizRequest options).quiz_type = "short_answer") ∧
    (options.quizType = QuizType.multiple_choice →
      (buildQuizRequest options).quiz_type = "multiple_choice") ∧
    (buildQuizRequest options).quiz_type ≠ "essay" ∧
    (buildQuizRequest options).quiz_type ≠ "mixed" ∧
    (options.fileIds = [] → (buildQuizRequest options).file_ids = none) := by
  rcases options with ⟨fileIds, quizType, numQuestions, quizPrompt⟩
  cases quizType
  · exact ⟨fun h => by simp at h, fun _ => rfl,
      by simp [buildQuizRequest, QuizType.toWire],
      by simp [buildQuizRequest, QuizType.toWire],
      fun h => by subst h; rfl⟩
  · exact ⟨fun _ => rfl, fun h => by simp at h,
      by simp [buildQuizRequest, QuizType.toWire],
      by simp [buildQuizRequest, QuizType.toWire],
      fun h => by subst h; rfl⟩

/-- C9 witness: at concrete inputs, blank_filling is sent as "short_answer",
multiple_choice is sent unchanged, and an empty file list becomes null. -/
theorem c9_quiz_type_mapping_and_null_file_ids_witness :
    (buildQuizRequest
      { fileIds := [], quizType := QuizType.blank_filling,
        numQuestions := 5, quizPrompt := none }).quiz_type = "short_answer" ∧
    (buildQuizRequest
      { fileIds := ["20240101_120000_abc12345"], quizType := QuizType.multiple_choice,
        numQuestions := 5, quizPrompt := none }).quiz_type = "multiple_choice" ∧
    (buildQuizRequest
      { fileIds := [], quizType := QuizType.blank_filling,
        numQuestions := 5, quizPrompt := none }).file_ids = none :=
  ⟨(c9_quiz_type_mapping_and_null_file_ids _).1 rfl,
   (c9_quiz_type_mapping_and_null_file_ids _).2.1 rfl,
   (c9_quiz_type_mapping_and_null_file_ids _).2.2.2.2 rfl⟩

/-- C4 counterexample: the claim "num_questions is clamped to [1,20], 0 is
treated as 1 and 50 as 20" is false on the client code: a request for 0
questions is sent with `num_questions = 5` (the `|| 5` default), a direct
request for 50 is sent with `num_questions = 50`, and the quiz page turns 50
into 10 (its own [3,10] clamp) — never 1 or 20. -/
theorem c4_counterexample_no_1_20_clamp :
    (buildQuizRequest
      { fileIds := [], quizType := QuizType.multiple_choice,
        numQuestions := 0, quizPrompt := none }).num_questions = 5 ∧
    (buildQuizRequest
      { fileIds := [], quizType := QuizType.multiple_choice,
        numQuestions := 0, quizPrompt := none }).num_questions ≠ 1 ∧
    (buildQuizRequest
      { fileIds := [], quizType := QuizType.multiple_choice,
        numQuestions := 50, quizPrompt := none }).num_questions = 50 ∧
    (buildQuizRequest
      { fileIds := [], quizType := QuizType.multiple_choice,
        numQuestions := 50, quizPrompt := none }).num_questions ≠ 20 ∧
    questionsToGenerate 50 = 10 ∧ questionsToGenerate 0 = 5 := by
  refine ⟨rfl, by decide, rfl, by decide, by decide, by decide⟩

/-- C4 amended: the client applies no [1,20] clamp. `generateQuizFromAPI`
sends the requested count unchanged except that the falsy 0 becomes the
default 5, and the quiz page clamps its own requests into [3,10] via
`Math.max(3, Math.min(n || 5, 10))`, so 0 is treated as 5 and 50 as 10 on
the page path (or sent as 50 on the direct path). -/
theorem c4_amended_client_count_handling (options : QuizGenerationOptions) (n : Int) :
    (buildQuizRequest options).num_questions =
      (if options.numQuestions = 0 then 5 else options.numQuestions) ∧
    questionsToGenerate n = max 3 (min (if n = 0 then 5 else n) 10) ∧
    3 ≤ questionsToGenerate n ∧ questionsToGenerate n ≤ 10 := by
  refine ⟨rfl, rfl, ?_, ?_⟩
  · exact le_max_left 3 _
  · unfold questionsToGenerate jsOrNum
    split <;> omega

/-- The dynamic type of a user answer in the quiz player
(`string | number`, per `handleAnswerSelect`). -/
inductive JSPrim where
  | str (s : String)
  | num (n : Int)
deriving DecidableEq, Repr

/-- A question as the quiz player holds it at runtime: `type` is the plain
string tag the app stores ("multiple_choice" / "blank_filling"), `answer`
and `correctAnswer` are optional as in `Question` (quizTypes.ts). -/
structure PlayerQuestion where
  id : Int
  type : String
  text : String
  options : Option (List String)
  answer : Option String
  correctAnswer : Option JSPrim
deriving Repr

/-- JavaScript `value.toString()` for a `string | number` value. -/
def jsToString : JSPrim → String
  | JSPrim.str s => s
  | JSPrim.num n => toString n

/-- The grading step of `handleAnswerSelect` in the quiz player
(quizUser component, player lines 70-98): `isCorrect` starts false;
multiple_choice grades by strict equality `answer === correctAnswer`;
blank_filling compares `answer.toString().toLowerCase().trim()` against
`question.answer?.toLowerCase().trim()` (an undefined stored answer
compares unequal); any other question type leaves `isCorrect` false. -/
def isCorrectAnswer (q : PlayerQuestion) (answer : JSPrim) : Bool :=
  if q.type = "multiple_choice" then
    match q.correctAnswer with
    | some v => decide (answer = v)
    | none => false
  else if q.type = "blank_filling" then
    match q.answer with
    | some stored =>
        decide ((jsToString answer).toLower.trim = stored.toLower.trim)
    | none => false
  else false

/-- C10 claim-side grading rule, stated from the claim's words: correct iff
(multiple_choice and the answer is strictly the stored correctAnswer) or
(blank_filling and the lowercased, trimmed strings agree); everything else
is incorrect. -/
def gradedCorrectSpec (q : PlayerQuestion) (a : JSPrim) : Prop :=
  (q.type = "multiple_choice" ∧ q.correctAnswer = some a) ∨
  (q.type = "blank_filling" ∧ ∃ stored, q.answer = some stored ∧
    (jsToString a).toLower.trim = stored.toLower.trim)

/-- C10: the player grades an answer correct if and only if the question is
multiple_choice and the answer is strictly equal to the stored correctAnswer
index, or the question is blank_filling and the answer equals the stored
answer after lowercasing and trimming both sides; any other question type is
always graded incorrect. -/
theorem c10_grading_characterization (q : PlayerQuestion) (a : JSPrim) :
    isCorrectAnswer q a = true ↔ gradedCorrectSpec q a := by
  unfold isCorrectAnswer gradedCorrectSpec
  by_cases hmc : q.type = "multiple_choice"
  · have hbf : ¬ q.type = "blank_filling" := by rw [hmc]; simp
    rw [if_pos hmc]
    rcases hca : q.correctAnswer with _ | v
    · simp [hmc, hbf, hca]
    · simp only [hmc, hbf, hca, decide_eq_true_eq, Option.some.injEq,
        true_and, false_and, or_false]
      constructor
      · intro h
        exact Or.inl h.symm
      · intro h
        rcases h with h | ⟨hcontra, _⟩
        · exact h.symm
        · exact absurd hcontra (by decide)
  · rw [if_neg hmc]
    by_cases hbf : q.type = "blank_filling"
    · rw [if_pos hbf]
      rcases hans : q.answer with _ | stored
      · simp [hmc, hbf, hans]
      · simp [hmc, hbf, hans]
    · rw [if_neg hbf]
      simp [hmc, hbf]

/-!
Part 2: the retrieval engine.  The client side (`buildRagChatRequest`) is
embedded from src/client/src/utils/ragChat.ts.  The server-side Retriever,
ChunkStore and FileRegistry are not under src/ (only their API
documentation, src/server/FILE_TRACKING_API.md, is), so they are modelled
from the spec.
-/

/-- The request body of `ragChat` (ragChat.ts, lines 26-38). -/
structure ChatRequestBody where
  message : String
  file_ids : Option (List String)
  max_chunks_per_file : Option Nat
deriving DecidableEq, Repr

/-- The endpoint/body selection of `ragChat` (ragChat.ts, lines 24-38):
default endpoint `/api/chat` with `{message}`; when `fileIds` is provided
and non-empty, endpoint `/api/chat/files` with
`{message, file_ids, max_chunks_per_file: 3}`. -/
def buildRagChatRequest (question : String) (fileIds : Option (List String)) :
    String × ChatRequestBody :=
  match fileIds with
  | some fids =>
    if fids.length > 0 then
      ("http://localhost:5000/api/chat/files",
       { message := question, file_ids := some fids, max_chunks_per_file := some 3 })
    else
      ("http://localhost:5000/api/chat",
       { message := question, file_ids := none, max_chunks_per_file := none })
  | none =>
    ("http://localhost:5000/api/chat",
     { message := question, file_ids := none, max_chunks_per_file := none })

/-- An embedded text chunk tagged with its owning file (spec section 3). -/
structure Chunk where
  content : String
  file_id : String
  chunk_index : Nat
deriving DecidableEq, Repr

/-- The comparison used by `ChunkStore.search`: descending similarity,
ties broken by ascending `chunk_index` then ascending `file_id`
(spec section 4.2). -/
def chunkBefore (score : Chunk → Int) (a b : Chunk) : Bool :=
  decide (score b < score a ∨ (score a = score b ∧
    (a.chunk_index < b.chunk_index ∨
      (a.chunk_index = b.chunk_index ∧ a.file_id ≤ b.file_id))))

/-- Modelled from the spec: `ChunkStore.search` of the server (absent from
src/; described in spec section 4.2 and FILE_TRACKING_API.md).  The corpus
is restricted to the optional file scope, sorted by descending similarity
(`score` stands for the similarity of each chunk to the embedded query),
and cut to `top_k`. -/
def chunkSearch (corpus : List Chunk) (score : Chunk → Int)
    (scope : Option (List String)) (top_k : Nat) : List Chunk :=
  match scope with
  | none => (corpus.mergeSort (chunkBefore score)).take top_k
  | some fids =>
    ((corpus.filter (fun c => fids.contains c.file_id)).mergeSort
      (chunkBefore score)).take top_k

/-- Modelled from the spec: `FileRegistry.resolve_many` of the server
(absent from src/; spec section 4.1): splits the requested ids into the
found and the missing set, never failing on missing ids. -/
def resolveMany (registry : List String) (file_ids : List String) :
    List String × List String :=
  ((file_ids.filter (fun id => registry.contains id)).dedup,
   (file_ids.filter (fun id => ! registry.contains id)).dedup)

/-- The response of a retrieval request (spec sections 3 and 6). -/
structure RetrievalResult where
  chunks : List Chunk
  found_files : List String
  not_found_files : List String
deriving DecidableEq, Repr

/-- Modelled from the spec: the server-side `Retriever.retrieve` (absent
from src/; spec section 4.3).  An empty or omitted `file_ids` list is an
unscoped global search cut at `max_total_chunks`; otherwise the ids are
resolved with `resolveMany`, each found file is searched independently with
`top_k = max_chunks_per_file`, and the per-file results are concatenated.
It is a total function: unknown ids are reported, never raised. -/
def retrieve (registry : List String) (corpus : List Chunk)
    (score : Chunk → Int) (file_ids : Option (List String))
    (max_chunks_per_file max_total_chunks : Nat) : RetrievalResult :=
  match file_ids with
  | none =>
    { chunks := chunkSearch corpus score none max_total_chunks
      found_files := []
      not_found_files := [] }
  | some fids =>
    if fids.isEmpty then
      { chunks := chunkSearch corpus score none max_total_chunks
        found_files := []
        not_found_files := [] }
    else
      { chunks := (resolveMany registry fids).1.flatMap
          (fun f => chunkSearch corpus score (some [f]) max_chunks_per_file)
        found_files := (resolveMany registry fids).1
        not_found_files := (resolveMany registry fids).2 }

/-- Every chunk returned by a search scoped to the single file `f` is
tagged with `f`. -/
theorem file_id_of_mem_chunkSearch {corpus : List Chunk} {score : Chunk → Int}
    {f : String} {k : Nat} {c : Chunk}
    (h : c ∈ chunkSearch corpus score (some [f]) k) : c.file_id = f := by
  unfold chunkSearch at h
  have h1 : c ∈ (corpus.filter (fun c => [f].contains c.file_id)).mergeSort
      (chunkBefore score) := List.mem_of_mem_take h
  rw [List.mem_mergeSort, List.mem_filter] at h1
  simpa using h1.2

/-- A single-file search returns at most `k` chunks. -/
theorem length_chunkSearch_le (corpus : List Chunk) (score : Chunk → Int)
    (scope : Option (List String)) (k : Nat) :
    (chunkSearch corpus score scope k).length ≤ k := by
  unfold chunkSearch
  rcases scope with _ | fids
  · rw [List.length_take]
    omega
  · rw [List.length_take]
    omega

/-- A flatMap whose every block rejects `p` has `countP p` zero. -/
theorem countP_flatMap_eq_zero {α β : Type} (g : α → List β) (p : β → Bool)
    (l : List α) (h : ∀ f ∈ l, ∀ a ∈ g f, p a = false) :
    (l.flatMap g).countP p = 0 := by
  rw [List.countP_eq_zero]
  intro a ha
  rw [List.mem_flatMap] at ha
  obtain ⟨f, hf, haf⟩ := ha
  simp [h f hf a haf]

/-- Counting over a flatMap indexed by a duplicate-free list, where only the
block of `fid` can contain hits and that block has length at most `k`. -/
theorem countP_flatMap_le {α : Type} [DecidableEq α] {β : Type}
    (g : α → List β) (p : β → Bool) (l : List α) (k : Nat) (fid : α)
    (hnd : l.Nodup)
    (hlen : (g fid).length ≤ k)
    (hzero : ∀ f, f ≠ fid → ∀ a ∈ g f, p a = false) :
    (l.flatMap g).countP p ≤ k := by
  induction l with
  | nil => exact Nat.zero_le k
  | cons f rest ih =>
    rw [List.flatMap_cons, List.countP_append]
    rcases List.nodup_cons.mp hnd with ⟨hfnotin, hndrest⟩
    by_cases hf : f = fid
    · subst hf
      have hrest : (rest.flatMap g).countP p = 0 := by
        apply countP_flatMap_eq_zero
        intro f2 hf2 a ha
        exact hzero f2 (fun he => hfnotin (he ▸ hf2)) a ha
      have hhead : (g f).countP p ≤ k :=
        le_trans (List.countP_le_length p) hlen
      omega
    · have hhead : (g f).countP p = 0 := by
        rw [List.countP_eq_zero]
        intro a ha
        simp [hzero f hf a ha]
      have := ih hndrest
      omega

/-- C2: for every retrieval request scoped to a non-empty list of file
identifiers with per-file budget `k`, the result contains at most `k`
chunks tagged with any given `file_id`, independently of the similarity
scores (the fairness invariant of multi-file retrieval). -/
theorem c2_per_file_budget (registry : List String) (corpus : List Chunk)
    (score : Chunk → Int) (fids : List String) (k m : Nat) (fid : String)
    (hne : fids ≠ []) :
    ((retrieve registry corpus score (some fids) k m).chunks.countP
      (fun c => c.file_id == fid)) ≤ k := by
  simp only [retrieve]
  rw [if_neg (by simp [List.isEmpty_iff, hne])]
  apply countP_flatMap_le
  · exact List.nodup_dedup _
  · exact length_chunkSearch_le corpus score (some [fid]) k
  · intro f hf a ha
    have : a.file_id = f := file_id_of_mem_chunkSearch ha
    simp [this, hf]

/-- C2 witness: with two files of budget 1 and a corpus of three chunks of
file "A" and one of file "B", at most one returned chunk is tagged "A". -/
theorem c2_per_file_budget_witness :
    ((retrieve ["A", "B"]
        [{ content := "a0", file_id := "A", chunk_index := 0 },
         { content := "a1", file_id := "A", chunk_index := 1 },
         { content := "a2", file_id := "A", chunk_index := 2 },
         { content := "b0", file_id := "B", chunk_index := 0 }]
        (fun _ => 0) (some ["A", "B"]) 1 5).chunks.countP
      (fun c => c.file_id == "A")) ≤ 1 :=
  c2_per_file_budget _ _ _ _ 1 5 "A" (by simp)

/-- C5: a retrieval request naming only unknown file identifiers returns an
empty result (it never raises — `retrieve` is total) and reports each
unknown identifier in `not_found_files`; and a batch mixing known and
unknown identifiers is not aborted: its chunks are exactly those of the
same request restricted to its known identifiers. -/
theorem c5_unknown_ids_reported_not_aborting (registry : List String)
    (corpus : List Chunk) (score : Chunk → Int) (k m : Nat) :
    (∀ fids, fids ≠ [] → (∀ id ∈ fids, id ∉ registry) →
      (retrieve registry corpus score (some fids) k m).chunks = [] ∧
      ∀ id ∈ fids,
        id ∈ (retrieve registry corpus score (some fids) k m).not_found_files) ∧
    (∀ fids, fids.filter (fun id => registry.contains id) ≠ [] →
      (retrieve registry corpus score (some fids) k m).chunks =
        (retrieve registry corpus score
          (some (fids.filter (fun id => registry.contains id))) k m).chunks) := by
  constructor
  · intro fids hne hunknown
    have hfound : fids.filter (fun id => registry.contains id) = [] := by
      rw [List.filter_eq_nil_iff]
      intro a ha
      simpa using hunknown a ha
    have hmiss : fids.filter (fun id => ! registry.contains id) = fids := by
      rw [List.filter_eq_self]
      intro a ha
      simpa using hunknown a ha
    constructor
    · simp only [retrieve]
      rw [if_neg (by simp [List.isEmpty_iff, hne])]
      simp only [resolveMany, hfound, List.dedup_nil]
      rfl
    · intro id hid
      simp only [retrieve]
      rw [if_neg (by simp [List.isEmpty_iff, hne])]
      simp only [resolveMany, hmiss, List.mem_dedup]
      exact hid
  · intro fids hne
    have hne2 : fids ≠ [] := by
      intro h
      rw [h] at hne
      simp at hne
    have hff : (fids.filter (fun id => registry.contains id)).filter
        (fun id => registry.contains id) =
        fids.filter (fun id => registry.contains id) :=
      List.filter_eq_self.mpr (fun a ha => List.of_mem_filter ha)
    simp only [retrieve]
    rw [if_neg (by simp [List.isEmpty_iff, hne2]),
      if_neg (by rw [List.isEmpty_iff]; exact hne)]
    simp only [resolveMany, hff]

/-- C5 witness: requesting only the unknown id "missing" against a registry
holding only "known" yields no chunks and reports "missing"; and adding the
unknown id to a request for "known" leaves the chunks unchanged. -/
theorem c5_unknown_ids_reported_not_aborting_witness :
    ((retrieve ["known"] [{ content := "c", file_id := "known", chunk_index := 0 }]
        (fun _ => 0) (some ["missing"]) 3 5).chunks = [] ∧
      "missing" ∈ (retrieve ["known"]
        [{ content := "c", file_id := "known", chunk_index := 0 }]
        (fun _ => 0) (some ["missing"]) 3 5).not_found_files) ∧
    (retrieve ["known"] [{ content := "c", file_id := "known", chunk_index := 0 }]
        (fun _ => 0) (some ["known", "missing"]) 3 5).chunks =
      (retrieve ["known"] [{ content := "c", file_id := "known", chunk_index := 0 }]
        (fun _ => 0) (some (["known", "missing"].filter
          (fun id => ["known"].contains id))) 3 5).chunks := by
  constructor
  · refine ⟨((c5_unknown_ids_reported_not_aborting ["known"] _ _ 3 5).1
      ["missing"] (by simp) ?_).1, ?_⟩
    · intro id hid
      simp at hid
      subst hid
      simp
    · refine ((c5_unknown_ids_reported_not_aborting ["known"] _ _ 3 5).1
        ["missing"] (by simp) ?_).2 "missing" (by simp)
      intro id hid
      simp at hid
      subst hid
      simp
  · exact (c5_unknown_ids_reported_not_aborting ["known"] _ _ 3 5).2
      ["known", "missing"] (by simp)

/-- C6: a retrieval request whose file_ids list is empty or omitted is an
unscoped global search with `max_total_chunks` as the single cutoff — an
empty list behaves like an omitted one, not like "search nothing" — and the
client `ragChat` likewise sends an empty fileIds list to the same unscoped
endpoint as an omitted one. -/
theorem c6_empty_file_ids_is_global (question : String) (registry : List String)
    (corpus : List Chunk) (score : Chunk → Int) (k m : Nat) :
    buildRagChatRequest question (some []) = buildRagChatRequest question none ∧
    retrieve registry corpus score (some []) k m =
      retrieve registry corpus score none k m ∧
    (retrieve registry corpus score none k m).chunks =
      (corpus.mergeSort (chunkBefore score)).take m ∧
    (retrieve registry corpus score none k m).chunks.length ≤ m := by
  refine ⟨rfl, rfl, rfl, ?_⟩
  simp only [retrieve, chunkSearch]
  rw [List.length_take]
  omega

/-!
Part 3: quiz-generation outcome and file identifiers.  The server-side
`QuizGenerator` parse step and the file-id generator are not under src/
(only the `QuizResponse` declaration, the caller in QuizExam.tsx, and
FILE_TRACKING_API.md are), so they are modelled from the spec.
-/

/-- The tagged outcome of the quiz-generation parse step
(spec section 9: `Validated(QuizQuestion[]) | Degraded(raw_text)`; the
degraded branch is the `{ quiz: { raw_response } }` shape declared by
`QuizResponse` in quizGenerator.ts). -/
inductive QuizGenOutcome where
  | validated (questions : List RawQuestion)
  | degraded (raw_response : String)
deriving Repr

/-- Modelled from the spec: the parse/fallback step of the server-side
`QuizGenerator.generate_quiz` (absent from src/; spec section 4.5).
`tryParse` stands for the tolerant structured extraction from the raw
generation text (code fences, surrounding prose, quote normalization);
when it fails entirely the component returns the degraded result carrying
the raw response text.  The function is total: parse failure is a value,
never an exception. -/
def generateQuizOutcome (tryParse : String → Option (List RawQuestion))
    (raw : String) : QuizGenOutcome :=
  match tryParse raw with
  | some qs => QuizGenOutcome.validated qs
  | none => QuizGenOutcome.degraded raw

/-- C3: whenever the generation output cannot be parsed into structured
questions, quiz generation returns (rather than raises) the degraded
result carrying the original raw response text, and that result is
distinguishable from every validated result. -/
theorem c3_parse_failure_degrades
    (tryParse : String → Option (List RawQuestion)) (raw : String)
    (h : tryParse raw = none) :
    generateQuizOutcome tryParse raw = QuizGenOutcome.degraded raw ∧
    ∀ qs, generateQuizOutcome tryParse raw ≠ QuizGenOutcome.validated qs := by
  constructor
  · unfold generateQuizOutcome
    rw [h]
  · intro qs hc
    unfold generateQuizOutcome at hc
    rw [h] at hc
    exact QuizGenOutcome.noConfusion hc

/-- C3 witness: with a parser that rejects everything, the non-JSON text
"this is not JSON" comes back verbatim in the degraded branch. -/
theorem c3_parse_failure_degrades_witness :
    generateQuizOutcome (fun _ => none) "this is not JSON" =
      QuizGenOutcome.degraded "this is not JSON" :=
  (c3_parse_failure_degrades (fun _ => none) "this is not JSON" rfl).1

/-- Three-way comparison on naturals, written out so that the proofs below
work by case analysis on the two strict comparisons. -/
def natCmp (a b : Nat) : Ordering :=
  if a < b then Ordering.lt else if b < a then Ordering.gt else Ordering.eq

/-- Lexicographic three-way comparison of character lists: the standard
string comparison every consumer of the generated file ids applies. -/
def lexCmp : List Char → List Char → Ordering
  | [], [] => Ordering.eq
  | [], _ :: _ => Ordering.lt
  | _ :: _, [] => Ordering.gt
  | a :: as, b :: bs =>
    if a < b then Ordering.lt
    else if b < a then Ordering.gt
    else lexCmp as bs

/-- The number `n` printed as exactly `w` decimal digits, zero-padded, most
significant first (the `YYYY`, `MM`, ... fields of the id format). -/
def padDigits : Nat → Nat → List Char
  | 0, _ => []
  | w + 1, n => Nat.digitChar (n / 10 ^ w) :: padDigits w (n % 10 ^ w)

/-- The wall-clock reading used when an uploaded file is registered. -/
structure GenTimestamp where
  year : Nat
  month : Nat
  day : Nat
  hour : Nat
  minute : Nat
  second : Nat
deriving DecidableEq, Repr

/-- Field bounds under which the fixed-width format is faithful (calendar
values are far below these). -/
def tsBounded (t : GenTimestamp) : Prop :=
  t.year < 10000 ∧ t.month < 100 ∧ t.day < 100 ∧
    t.hour < 100 ∧ t.minute < 100 ∧ t.second < 100

/-- Modelled from the spec: the `YYYYMMDD_HHMMSS` timestamp part of a
generated file identifier (spec section 6 and FILE_TRACKING_API.md "File ID
Format"; the server-side generator is absent from src/). -/
def formatTimestamp (t : GenTimestamp) : List Char :=
  padDigits 4 t.year ++ (padDigits 2 t.month ++ (padDigits 2 t.day ++
    ('_' :: (padDigits 2 t.hour ++ (padDigits 2 t.minute ++ padDigits 2 t.second)))))

/-- Modelled from the spec: a generated file identifier
`YYYYMMDD_HHMMSS_<8-char-suffix>`. -/
def generateFileId (t : GenTimestamp) (suffix : List Char) : String :=
  String.mk (formatTimestamp t ++ '_' :: suffix)

/-- Chronological comparison of two timestamps: fields compared most
significant first. -/
def tsCmp (t1 t2 : GenTimestamp) : Ordering :=
  (natCmp t1.year t2.year).then ((natCmp t1.month t2.month).then
    ((natCmp t1.day t2.day).then ((natCmp t1.hour t2.hour).then
      ((natCmp t1.minute t2.minute).then (natCmp t1.second t2.second)))))

/-- Validation of the `YYYYMMDD_HHMMSS_<8-char-suffix>` shape of a file
identifier (spec section 6: "must be validated as well-formed before being
trusted as a lookup key"). -/
def wellFormedFileId (s : String) : Bool :=
  match s.data with
  | d1 :: d2 :: d3 :: d4 :: d5 :: d6 :: d7 :: d8 :: u1 ::
      h1 :: h2 :: h3 :: h4 :: h5 :: h6 :: u2 :: rest =>
    ([d1, d2, d3, d4, d5, d6, d7, d8].all Char.isDigit) && u1 == '_' &&
      ([h1, h2, h3, h4, h5, h6].all Char.isDigit) && u2 == '_' &&
      rest.length == 8
  | _ => false

/-- `padDigits` always produces exactly `w` characters. -/
theorem length_padDigits (w n : Nat) : (padDigits w n).length = w := by
  induction w generalizing n with
  | zero => rfl
  | succ w ih => simp [padDigits, ih]

/-- A digit value below ten prints as a decimal digit character. -/
theorem isDigit_digitChar {x : Nat} (hx : x < 10) :
    (Nat.digitChar x).isDigit = true := by
  interval_cases x <;> decide

/-- Digit characters compare exactly as their digit values. -/
theorem digitChar_lt_iff {x y : Nat} (hx : x < 10) (hy : y < 10) :
    (Nat.digitChar x < Nat.digitChar y) ↔ x < y := by
  interval_cases x <;> interval_cases y <;> decide

/-- Adding a common leading quantity does not change a comparison. -/
theorem natCmp_add_left (p ra rb : Nat) :
    natCmp (p + ra) (p + rb) = natCmp ra rb := by
  unfold natCmp
  by_cases h : ra < rb
  · rw [if_pos h, if_pos (by omega)]
  · by_cases h2 : rb < ra
    · rw [if_neg (by omega), if_pos (by omega), if_neg h, if_pos h2]
    · rw [if_neg (by omega), if_neg (by omega), if_neg h, if_neg h2]

/-- Fixed-width zero-padded decimal printing turns numeric comparison into
lexicographic comparison. -/
theorem lexCmp_padDigits {w a b : Nat} (ha : a < 10 ^ w) (hb : b < 10 ^ w) :
    lexCmp (padDigits w a) (padDigits w b) = natCmp a b := by
  induction w generalizing a b with
  | zero =>
    interval_cases a
    interval_cases b
    rfl
  | succ w ih =>
    have hpos : 0 < (10 : Nat) ^ w := pow_pos (by norm_num) w
    rw [pow_succ] at ha hb
    have hda : a / 10 ^ w < 10 := by
      rw [Nat.div_lt_iff_lt_mul hpos]
      omega
    have hdb : b / 10 ^ w < 10 := by
      rw [Nat.div_lt_iff_lt_mul hpos]
      omega
    simp only [padDigits, lexCmp]
    by_cases hlt : a / 10 ^ w < b / 10 ^ w
    · rw [if_pos ((digitChar_lt_iff hda hdb).mpr hlt)]
      have hab : a < b := Nat.lt_of_div_lt_div hlt
      unfold natCmp
      rw [if_pos hab]
    · by_cases hgt : b / 10 ^ w < a / 10 ^ w
      · rw [if_neg (fun hc => hlt ((digitChar_lt_iff hda hdb).mp hc)),
          if_pos ((digitChar_lt_iff hdb hda).mpr hgt)]
        have hba : b < a := Nat.lt_of_div_lt_div hgt
        unfold natCmp
        rw [if_neg (by omega), if_pos hba]
      · have heq : a / 10 ^ w = b / 10 ^ w := by omega
        rw [if_neg (fun hc => hlt ((digitChar_lt_iff hda hdb).mp hc)),
          if_neg (fun hc => hgt ((digitChar_lt_iff hdb hda).mp hc)),
          ih (Nat.mod_lt _ hpos) (Nat.mod_lt _ hpos)]
        have h1 : 10 ^ w * (a / 10 ^ w) + a % 10 ^ w = a := Nat.div_add_mod a _
        have h2 : 10 ^ w * (b / 10 ^ w) + b % 10 ^ w = b := Nat.div_add_mod b _
        rw [heq] at h1
        calc natCmp (a % 10 ^ w) (b % 10 ^ w)
            = natCmp (10 ^ w * (b / 10 ^ w) + a % 10 ^ w)
                (10 ^ w * (b / 10 ^ w) + b % 10 ^ w) :=
              (natCmp_add_left _ _ _).symm
          _ = natCmp a b := by rw [h1, h2]

/-- Lexicographic comparison over a split into equal-length left parts:
the left parts decide unless they tie. -/
theorem lexCmp_append {xs ys : List Char} (as bs : List Char)
    (h : xs.length = ys.length) :
    lexCmp (xs ++ as) (ys ++ bs) = (lexCmp xs ys).then (lexCmp as bs) := by
  induction xs generalizing ys with
  | nil =>
    cases ys with
    | nil => rfl
    | cons y ys => simp at h
  | cons x xs ih =>
    cases ys with
    | nil => simp at h
    | cons y ys =>
      simp only [List.cons_append, lexCmp]
      by_cases h1 : x < y
      · rw [if_pos h1, if_pos h1]
        rfl
      · by_cases h2 : y < x
        · rw [if_neg h1, if_pos h2, if_neg h1, if_pos h2]
          rfl
        · rw [if_neg h1, if_neg h2, if_neg h1, if_neg h2]
          exact ih (by simpa using h)

/-- The timestamp part of a file id is always 15 characters. -/
theorem length_formatTimestamp (t : GenTimestamp) :
    (formatTimestamp t).length = 15 := by
  simp [formatTimestamp, length_padDigits]

/-- Lexicographic order of the timestamp parts is exactly chronological
order of the timestamps. -/
theorem lexCmp_formatTimestamp {t1 t2 : GenTimestamp}
    (h1 : tsBounded t1) (h2 : tsBounded t2) :
    lexCmp (formatTimestamp t1) (formatTimestamp t2) = tsCmp t1 t2 := by
  obtain ⟨hy1, hmo1, hd1, hh1, hmi1, hs1⟩ := h1
  obtain ⟨hy2, hmo2, hd2, hh2, hmi2, hs2⟩ := h2
  have hy1b : t1.year < 10 ^ 4 := by norm_num [hy1]
  have hy2b : t2.year < 10 ^ 4 := by norm_num [hy2]
  have b100 : ∀ n : Nat, n < 100 → n < 10 ^ 2 := by norm_num
  unfold formatTimestamp tsCmp
  rw [lexCmp_append _ _ (by simp [length_padDigits]),
    lexCmp_padDigits hy1b hy2b,
    lexCmp_append _ _ (by simp [length_padDigits]),
    lexCmp_padDigits (b100 _ hmo1) (b100 _ hmo2),
    lexCmp_append _ _ (by simp [length_padDigits]),
    lexCmp_padDigits (b100 _ hd1) (b100 _ hd2)]
  have hu : lexCmp
      ('_' :: (padDigits 2 t1.hour ++ (padDigits 2 t1.minute ++ padDigits 2 t1.second)))
      ('_' :: (padDigits 2 t2.hour ++ (padDigits 2 t2.minute ++ padDigits 2 t2.second))) =
      lexCmp (padDigits 2 t1.hour ++ (padDigits 2 t1.minute ++ padDigits 2 t1.second))
        (padDigits 2 t2.hour ++ (padDigits 2 t2.minute ++ padDigits 2 t2.second)) := by
    simp [lexCmp, lt_irrefl]
  rw [hu, lexCmp_append _ _ (by simp [length_padDigits]),
    lexCmp_padDigits (b100 _ hh1) (b100 _ hh2),
    lexCmp_append _ _ (by simp [length_padDigits]),
    lexCmp_padDigits (b100 _ hmi1) (b100 _ hmi2),
    lexCmp_padDigits (b100 _ hs1) (b100 _ hs2)]

/-- `padDigits 4` written out. -/
theorem padDigits_four (n : Nat) :
    padDigits 4 n = [Nat.digitChar (n / 1000), Nat.digitChar (n % 1000 / 100),
      Nat.digitChar (n % 1000 % 100 / 10), Nat.digitChar (n % 1000 % 100 % 10)] := by
  show padDigits 4 n = _
  simp only [padDigits]
  norm_num

/-- `padDigits 2` written out. -/
theorem padDigits_two (n : Nat) :
    padDigits 2 n = [Nat.digitChar (n / 10), Nat.digitChar (n % 10)] := by
  simp only [padDigits]
  norm_num

/-- A generated file id passes the format validation. -/
theorem wellFormed_generateFileId {t : GenTimestamp} {suffix : List Char}
    (hb : tsBounded t) (hs : suffix.length = 8) :
    wellFormedFileId (generateFileId t suffix) = true := by
  obtain ⟨hy, hmo, hd, hh, hmi, hsec⟩ := hb
  have k1 : (Nat.digitChar (t.year / 1000)).isDigit = true :=
    isDigit_digitChar (by omega)
  have k2 : (Nat.digitChar (t.year % 1000 / 100)).isDigit = true :=
    isDigit_digitChar (by omega)
  have k3 : (Nat.digitChar (t.year % 1000 % 100 / 10)).isDigit = true :=
    isDigit_digitChar (by omega)
  have k4 : (Nat.digitChar (t.year % 1000 % 100 % 10)).isDigit = true :=
    isDigit_digitChar (by omega)
  have k5 : (Nat.digitChar (t.month / 10)).isDigit = true :=
    isDigit_digitChar (by omega)
  have k6 : (Nat.digitChar (t.month % 10)).isDigit = true :=
    isDigit_digitChar (by omega)
  have k7 : (Nat.digitChar (t.day / 10)).isDigit = true :=
    isDigit_digitChar (by omega)
  have k8 : (Nat.digitChar (t.day % 10)).isDigit = true :=
    isDigit_digitChar (by omega)
  have k9 : (Nat.digitChar (t.hour / 10)).isDigit = true :=
    isDigit_digitChar (by omega)
  have k10 : (Nat.digitChar (t.hour % 10)).isDigit = true :=
    isDigit_digitChar (by omega)
  have k11 : (Nat.digitChar (t.minute / 10)).isDigit = true :=
    isDigit_digitChar (by omega)
  have k12 : (Nat.digitChar (t.minute % 10)).isDigit = true :=
    isDigit_digitChar (by omega)
  have k13 : (Nat.digitChar (t.second / 10)).isDigit = true :=
    isDigit_digitChar (by omega)
  have k14 : (Nat.digitChar (t.second % 10)).isDigit = true :=
    isDigit_digitChar (by omega)
  unfold generateFileId formatTimestamp
  rw [padDigits_four, padDigits_two, padDigits_two, padDigits_two,
    padDigits_two, padDigits_two]
  simp only [List.cons_append, List.nil_append]
  unfold wellFormedFileId
  simp [k1, k2, k3, k4, k5, k6, k7, k8, k9, k10, k11, k12, k13, k14, hs]

/-- C7: every generated file identifier is well-formed as
`YYYYMMDD_HHMMSS_<8-char-suffix>`; a non-later registration never produces
a lexicographically greater timestamp part (the prefix is non-decreasing),
and a strictly earlier registration produces a lexicographically strictly
smaller identifier whatever the 8-character suffixes are — lexicographic
order of identifiers respects creation order. -/
theorem c7_file_id_wellformed_and_chronological (t1 t2 : GenTimestamp)
    (s1 s2 : List Char) (hb1 : tsBounded t1) (hb2 : tsBounded t2)
    (hl1 : s1.length = 8) (_hl2 : s2.length = 8) :
    wellFormedFileId (generateFileId t1 s1) = true ∧
    (tsCmp t1 t2 ≠ Ordering.gt →
      lexCmp (formatTimestamp t1) (formatTimestamp t2) ≠ Ordering.gt) ∧
    (tsCmp t1 t2 = Ordering.lt →
      lexCmp (generateFileId t1 s1).data (generateFileId t2 s2).data =
        Ordering.lt) := by
  refine ⟨wellFormed_generateFileId hb1 hl1, ?_, ?_⟩
  · intro h
    rw [lexCmp_formatTimestamp hb1 hb2]
    exact h
  · intro h
    show lexCmp (formatTimestamp t1 ++ '_' :: s1)
      (formatTimestamp t2 ++ '_' :: s2) = Ordering.lt
    rw [lexCmp_append _ _
        (by rw [length_formatTimestamp, length_formatTimestamp]),
      lexCmp_formatTimestamp hb1 hb2, h]
    rfl

/-- C7 witness: two concrete sequential registrations one second apart give
well-formed ids in strictly increasing lexicographic order regardless of
their suffixes. -/
theorem c7_file_id_wellformed_and_chronological_witness :
    wellFormedFileId (generateFileId
      { year := 2024, month := 1, day := 15, hour := 14, minute := 30, second := 22 }
      ['a', '1', 'b', '2', 'c', '3', 'd', '4']) = true ∧
    lexCmp (generateFileId
      { year := 2024, month := 1, day := 15, hour := 14, minute := 30, second := 22 }
      ['a', '1', 'b', '2', 'c', '3', 'd', '4']).data
      (generateFileId
      { year := 2024, month := 1, day := 15, hour := 14, minute := 30, second := 23 }
      ['e', '5', 'f', '6', 'a', '7', 'b', '8']).data = Ordering.lt :=
  ⟨(c7_file_id_wellformed_and_chronological
      { year := 2024, month := 1, day := 15, hour := 14, minute := 30, second := 22 }
      { year := 2024, month := 1, day := 15, hour := 14, minute := 30, second := 23 }
      ['a', '1', 'b', '2', 'c', '3', 'd', '4']
      ['e', '5', 'f', '6', 'a', '7', 'b', '8']
      (by unfold tsBounded; decide) (by unfold tsBounded; decide) rfl rfl).1,
   (c7_file_id_wellformed_and_chronological
      { year := 2024, month := 1, day := 15, hour := 14, minute := 30, second := 22 }
      { year := 2024, month := 1, day := 15, hour := 14, minute := 30, second := 23 }
      ['a', '1', 'b', '2', 'c', '3', 'd', '4']
      ['e', '5', 'f', '6', 'a', '7', 'b', '8']
      (by unfold tsBounded; decide) (by unfold tsBounded; decide) rfl rfl).2.2 (by decide)⟩
